import Mathlib

/-!
Verification of the Lazy-Learn-V2 desktop shell (src/src-tauri/src/lib.rs).

The program is a thin process supervisor: at setup it spawns a backend
process with a fixed command line and stores the resulting optional handle
in a mutex-guarded slot; on a window close-request it takes the handle out
of the slot and, when present, sends it a kill signal; one pure command
`greet` is exposed to the frontend.

The embedding models the mutex-guarded `Option<Child>` slot as an
`Option Child` value threaded explicitly through the event handlers (the
host framework drives the handlers sequentially).  The OS is an oracle:
the spawn syscall is a function `Command → Except String Child`, and the
kill syscall a function `Nat → Except String Unit`, both supplied as
parameters.  Observable effects (kill signals sent, lines printed to
stdout/stderr) are returned explicitly.
-/

namespace LazyLearn

/-- An OS process handle (`std::process::Child`): the only attribute the
program ever reads is the process id. -/
structure Child where
  pid : Nat
deriving DecidableEq, Repr

/-- A launch command as built by `std::process::Command`: program name,
argument list, and working directory. -/
structure Cmd where
  program : String
  args : List String
  cwd : String
deriving DecidableEq, Repr

/-- The fixed launch command built in `spawn_backend`
(src/src-tauri/src/lib.rs lines 16-19): `Command::new("python")`
with the uvicorn arguments and working directory `../backend`. -/
def backendCmd : Cmd :=
  { program := "python"
  , args := ["-m", "uvicorn", "app.main:app", "--port", "8000",
             "--host", "127.0.0.1"]
  , cwd := "../backend" }

/-- One line of diagnostic output: `out` is a `println!` line on stdout,
`err` an `eprintln!` line on stderr. -/
inductive ConsoleLine
  | out (s : String)
  | err (s : String)
deriving DecidableEq, Repr

/-- The function `spawn_backend` (src/src-tauri/src/lib.rs lines 12-31).
It calls the OS spawn oracle on the fixed command `backendCmd`; on `Ok`
it prints the pid message and returns `some child`, on `Err` it prints
the warning to stderr and returns `none`.  The Rust `match` catches the
error, so the Lean embedding is a total function: no exception escapes. -/
def spawn_backend (spawn : Cmd → Except String Child) :
    Option Child × List ConsoleLine :=
  match spawn backendCmd with
  | .ok child =>
      (some child,
       [.out ("Backend started with PID: " ++ toString child.pid)])
  | .error e =>
      (none,
       [.err ("Failed to start backend: " ++ e ++
              ". Frontend will connect when backend is manually started.")])

/-- The store in the setup closure (src/src-tauri/src/lib.rs line 41):
`*state.0.lock().unwrap() = backend` replaces the slot contents with the
spawn result, whatever the slot held before. -/
def storeHandle (_old : Option Child) (backend : Option Child) :
    Option Child := backend

/-- Application setup (src/src-tauri/src/lib.rs lines 37-43): the slot is
managed with initial value `None`, then `spawn_backend` runs and its
result is stored.  Returns the slot contents after setup together with
the diagnostic output of the launch attempt. -/
def setup (spawn : Cmd → Except String Child) :
    Option Child × List ConsoleLine :=
  let (backend, output) := spawn_backend spawn
  (storeHandle none backend, output)

/-- The window events delivered by the host framework.  Only
`closeRequested` is inspected by the program; the other constructors
stand for the remaining variants of `tauri::WindowEvent`. -/
inductive WindowEvent
  | closeRequested
  | resized (width height : Nat)
  | moved (x y : Int)
  | focused (gained : Bool)
  | scaleFactorChanged (num den : Nat)
  | destroyed
deriving DecidableEq, Repr

/-- The observable outcome of one run of the window-event handler: the
slot contents afterwards, the pids a kill signal was sent to (in order),
and the diagnostic lines printed. -/
structure HandlerResult where
  state : Option Child
  kills : List Nat
  output : List ConsoleLine
deriving DecidableEq, Repr

/-- The window-event handler (src/src-tauri/src/lib.rs lines 45-54).
On `CloseRequested` it takes the handle out of the slot; if one was
present it sends the kill signal (`let _ = child.kill()`: the oracle's
result is discarded on the spot) and prints the termination message.
Any other event leaves the slot untouched and does nothing. -/
def on_window_event (kill : Nat → Except String Unit)
    (event : WindowEvent) (state : Option Child) : HandlerResult :=
  match event with
  | .closeRequested =>
      match state with
      | some child =>
          let _ := kill child.pid
          { state := none
          , kills := [child.pid]
          , output := [.out "Backend process terminated."] }
      | none =>
          { state := none, kills := [], output := [] }
  | _ => { state := state, kills := [], output := [] }

/-- The command `greet` (src/src-tauri/src/lib.rs lines 7-10):
`format!("Hello, {}! Welcome to Lazy Learn.", name)`. -/
def greet (name : String) : String :=
  s!"Hello, {name}! Welcome to Lazy Learn."

/-- Runs a sequence of window events through the handler, threading the
slot and collecting every kill attempt in order. -/
def runEvents (kill : Nat → Except String Unit) :
    List WindowEvent → Option Child → Option Child × List Nat
  | [], state => (state, [])
  | e :: rest, state =>
      let r := on_window_event kill e state
      let (final, ks) := runEvents kill rest r.state
      (final, r.kills ++ ks)

/-- Every slot value seen along an event trace, starting state included. -/
def statesAlong (kill : Nat → Except String Unit) :
    List WindowEvent → Option Child → List (Option Child)
  | [], state => [state]
  | e :: rest, state =>
      state :: statesAlong kill rest (on_window_event kill e state).state

/-- How many handles the slot holds: 0 when empty, 1 when occupied. -/
def handleCount : Option Child → Nat
  | none => 0
  | some _ => 1

/-- C1: on a close-request event the handler empties the slot whatever it
held, and when a handle was present it sends exactly one kill signal to
that handle's pid and prints the termination confirmation. -/
theorem close_takes_and_kills (kill : Nat → Except String Unit)
    (state : Option Child) :
    (on_window_event kill .closeRequested state).state = none ∧
    ∀ c : Child,
      on_window_event kill .closeRequested (some c) =
        { state := none, kills := [c.pid]
        , output := [.out "Backend process terminated."] } := by
  refine ⟨?_, fun c => rfl⟩
  cases state <;> rfl

/-- C2 counterexample: starting from an empty slot, two close-request
events in a row produce zero kill attempts, not exactly one, so the
claim as stated ("for any starting state ... exactly one kill-signal
attempt") is false. -/
theorem two_closes_empty_start_no_kill :
    ¬ (runEvents (fun _ => .ok ())
        [.closeRequested, .closeRequested] none).2.length = 1 := by
  decide

/-- C2 amended: two successive close-request invocations with no
intervening store produce exactly `handleCount state` kill attempts —
one when a handle was present at the start, zero when the slot was
empty — so at most one; and the second invocation is always a no-op
(it sends no kill, prints nothing, and leaves the slot empty). -/
theorem two_closes_at_most_one_kill (kill : Nat → Except String Unit)
    (state : Option Child) :
    (runEvents kill [.closeRequested, .closeRequested] state).2.length
      = handleCount state ∧
    on_window_event kill .closeRequested
        (on_window_event kill .closeRequested state).state =
      { state := none, kills := [], output := [] } := by
  cases state <;> exact ⟨rfl, rfl⟩

/-- C3: when the OS spawn of the fixed backend command fails with any
error, `spawn_backend` returns the empty result together with the
stderr warning line, and nothing else; being a total Lean function whose
value carries no error component, no exception propagates to the caller. -/
theorem spawn_backend_failure (spawn : Cmd → Except String Child)
    (e : String) (h : spawn backendCmd = .error e) :
    spawn_backend spawn =
      (none,
       [.err ("Failed to start backend: " ++ e ++
              ". Frontend will connect when backend is manually started.")]) := by
  unfold spawn_backend
  rw [h]

/-- C3 witness: a concrete spawn oracle that fails with the usual
"command not found" error. -/
theorem spawn_backend_failure_witness :
    spawn_backend (fun _ => .error "No such file or directory (os error 2)") =
      (none,
       [.err ("Failed to start backend: No such file or directory (os error 2)"
              ++ ". Frontend will connect when backend is manually started.")]) :=
  spawn_backend_failure
    (fun _ => .error "No such file or directory (os error 2)")
    "No such file or directory (os error 2)" rfl

/-- C4: state exclusivity along every execution: after setup (launch and
store) and then any sequence of window events, every slot value ever
observed holds at most one handle. -/
theorem state_exclusivity (spawn : Cmd → Except String Child)
    (kill : Nat → Except String Unit) (events : List WindowEvent)
    (st : Option Child)
    (h : st ∈ statesAlong kill events (setup spawn).1) :
    handleCount st ≤ 1 := by
  cases st with
  | none => exact Nat.zero_le 1
  | some c => exact Nat.le_refl 1

/-- C4 witness: a successful launch followed by one close request; the
state observed right after setup holds one handle, within the bound. -/
theorem state_exclusivity_witness :
    some (Child.mk 7) ∈
      statesAlong (fun _ => .ok ()) [.closeRequested]
        (setup (fun _ => .ok (Child.mk 7))).1 ∧
    handleCount (some (Child.mk 7)) ≤ 1 := by
  refine ⟨by decide, ?_⟩
  exact state_exclusivity (fun _ => .ok (Child.mk 7)) (fun _ => .ok ())
    [.closeRequested] (some (Child.mk 7)) (by decide)

/-- C5: greet purity and exact output: for every input string the result
is exactly the fixed-format greeting embedding the name; `greet` is a
total Lean function, so it has no side effect, cannot fail, and two
calls on the same input are definitionally the same value. -/
theorem greet_exact (s : String) :
    greet s = "Hello, " ++ s ++ "! Welcome to Lazy Learn." ∧
    greet s = greet s := by
  exact ⟨rfl, rfl⟩

/-- C6: a close request on an empty slot is a silent no-op: no kill
signal, no output, slot still empty; the handler is total, so no error
is raised. -/
theorem close_empty_noop (kill : Nat → Except String Unit) :
    on_window_event kill .closeRequested none =
      { state := none, kills := [], output := [] } := rfl

/-- C7: the launch command is fixed: `spawn_backend` consults the OS
spawn oracle only at the hardcoded `backendCmd` — two environments that
agree on that single command produce identical results — and
`backendCmd` is exactly the python/uvicorn invocation on port 8000 and
host 127.0.0.1 with working directory ../backend. -/
theorem launch_command_fixed (s₁ s₂ : Cmd → Except String Child)
    (h : s₁ backendCmd = s₂ backendCmd) :
    spawn_backend s₁ = spawn_backend s₂ ∧
    backendCmd =
      { program := "python"
      , args := ["-m", "uvicorn", "app.main:app", "--port", "8000",
                 "--host", "127.0.0.1"]
      , cwd := "../backend" } := by
  constructor
  · unfold spawn_backend
    rw [h]
  · rfl

/-- C7 witness: two concrete oracles agreeing on the backend command. -/
theorem launch_command_fixed_witness :
    spawn_backend (fun _ => .ok (Child.mk 3)) =
      spawn_backend (fun c => if c.cwd = "../backend"
                              then .ok (Child.mk 3)
                              else .error "unused") := by
  exact (launch_command_fixed (fun _ => .ok (Child.mk 3))
    (fun c => if c.cwd = "../backend" then .ok (Child.mk 3)
              else .error "unused") (by rfl)).1

/-- C8: when the OS spawn of the fixed command succeeds with child `c`,
`spawn_backend` returns `some c` together with the stdout line carrying
that child's process id. -/
theorem spawn_backend_success (spawn : Cmd → Except String Child)
    (c : Child) (h : spawn backendCmd = .ok c) :
    spawn_backend spawn =
      (some c, [.out ("Backend started with PID: " ++ toString c.pid)]) := by
  unfold spawn_backend
  rw [h]

/-- C8 witness: a concrete successful spawn with pid 1234. -/
theorem spawn_backend_success_witness :
    spawn_backend (fun _ => .ok (Child.mk 1234)) =
      (some (Child.mk 1234), [.out ("Backend started with PID: " ++ toString 1234)]) :=
  spawn_backend_success (fun _ => .ok (Child.mk 1234)) (Child.mk 1234) rfl

/-- C9: the kill result is discarded: the handler's observable outcome
(slot afterwards, kill attempts, output) is identical whether the kill
oracle fails with any error or succeeds — the failure is not surfaced
and the signal is not retried (still exactly one attempt per handle). -/
theorem kill_failure_ignored (e : String) (event : WindowEvent)
    (state : Option Child) :
    on_window_event (fun _ => .error e) event state =
      on_window_event (fun _ => .ok ()) event state := by
  cases event <;> cases state <;> rfl

/-- C10: every window event other than a close request leaves the slot
exactly as it was, sends no kill signal and prints nothing. -/
theorem non_close_frame (kill : Nat → Except String Unit)
    (event : WindowEvent) (state : Option Child)
    (h : event ≠ .closeRequested) :
    on_window_event kill event state =
      { state := state, kills := [], output := [] } := by
  cases event with
  | closeRequested => exact absurd rfl h
  | resized w hh => rfl
  | moved x y => rfl
  | focused g => rfl
  | scaleFactorChanged n d => rfl
  | destroyed => rfl

/-- C10 witness: a destroyed event on an occupied slot changes nothing. -/
theorem non_close_frame_witness :
    on_window_event (fun _ => .ok ()) .destroyed (some (Child.mk 5)) =
      { state := some (Child.mk 5), kills := [], output := [] } :=
  non_close_frame (fun _ => .ok ()) .destroyed (some (Child.mk 5))
    (by decide)

end LazyLearn
